import Mathlib

/-!
Verification of the MCP protocol gateway of this repository.

The definitions below are a shallow embedding of
`backend/app/api/mcp_streamable.py` (the Streamable-HTTP gateway) and
`backend/app/services/mcp_process_manager.py` (the local process bridge).
Pure computations are translated directly; I/O boundaries (database
lookups, outbound HTTP attempts, the child process's stream behaviour,
`uuid.uuid4()`) are passed in as explicit oracle parameters, so every
definition is executable on concrete inputs.
-/

/-- JSON values as produced by `json.loads` / stored in JSONB columns.
Python `None` and JSON `null` coincide after parsing and are both `.null`. -/
inductive JVal where
  | null
  | bool (b : Bool)
  | num (n : Int)
  | str (s : String)
  | arr (xs : List JVal)
  | obj (fields : List (String × JVal))

/-- A parsed JSON object: Python `dict` with string keys (keys unique). -/
abbrev JObj := List (String × JVal)

/-- Kernel-reducible emptiness test for strings. -/
def strEmpty (s : String) : Bool := s.data.isEmpty

/-- ASCII lower-casing of one character (HTTP header names and media types
in this code are ASCII, so this matches Python `str.lower` where used). -/
def asciiLower (c : Char) : Char :=
  if 'A' ≤ c && c ≤ 'Z' then Char.ofNat (c.toNat + 32) else c

/-- ASCII `str.lower`. -/
def strLower (s : String) : String := String.mk (s.data.map asciiLower)

/-- `s.startswith(p)`. -/
def strStarts (s p : String) : Bool := p.data.isPrefixOf s.data

/-- Fuel-driven core of `str.replace`: left-to-right, non-overlapping. -/
def replChars (pat rep : List Char) : Nat → List Char → List Char
  | 0, rest => rest
  | _ + 1, [] => []
  | fuel + 1, c :: rest =>
    if pat.isPrefixOf (c :: rest) then
      rep ++ replChars pat rep fuel ((c :: rest).drop pat.length)
    else
      c :: replChars pat rep fuel rest

/-- Python `s.replace(pat, rep)` (all occurrences), for non-empty `pat`. -/
def strReplace (s pat rep : String) : String :=
  if pat.data.isEmpty then s
  else String.mk (replChars pat.data rep.data s.data.length s.data)

/-- Python truthiness of an `Optional[str]`: `None` and `""` are falsy. -/
def pyTruthyStr : Option String → Bool
  | none => false
  | some s => !(strEmpty s)

/-- Python truthiness of a JSON value. -/
def JVal.pyTruthy : JVal → Bool
  | .null => false
  | .bool b => b
  | .num n => n != 0
  | .str s => !(strEmpty s)
  | .arr xs => !xs.isEmpty
  | .obj fs => !fs.isEmpty

/-- `d.get(k)`: `None` when the key is absent. -/
def JObj.get (o : JObj) (k : String) : Option JVal := List.lookup k o

/-- `d.get(k, dflt)`. -/
def JObj.getD (o : JObj) (k : String) (dflt : JVal) : JVal := (o.get k).getD dflt

/-- `d.get(k)` as a JSON value: a missing key yields Python `None`,
which is indistinguishable from a stored JSON `null`. -/
def JObj.getPy (o : JObj) (k : String) : JVal := (o.get k).getD .null

/-- `k in d`. -/
def JObj.hasKey (o : JObj) (k : String) : Bool := (o.get k).isSome

/-- Whether a Python value obtained by `d.get(k)` `is None`. -/
def JVal.isNull : JVal → Bool
  | .null => true
  | _ => false

/-- Python `value == "s"` for a value read out of a JSON object
(`False` whenever the value is not a string). -/
def JVal.eqStr : JVal → String → Bool
  | .str t, s => t == s
  | _, _ => false

/-- The fields of a JSON object, `[]` for any non-object. -/
def JVal.objFields : JVal → JObj
  | .obj fs => fs
  | _ => []

/-- Path lookup inside nested JSON objects. -/
def JVal.getPath (j : JVal) : List String → Option JVal
  | [] => some j
  | k :: ks =>
    match j with
    | .obj fs =>
      match List.lookup k fs with
      | some v => JVal.getPath v ks
      | none => none
    | _ => none

/-- Python `str()` of a JSON-ish value, as interpolated by f-strings.
Only scalar renderings are relied on by any theorem below. -/
def JVal.pyStr : JVal → String
  | .null => "None"
  | .bool true => "True"
  | .bool false => "False"
  | .num n => toString n
  | .str s => s
  | .arr _ => "[...]"
  | .obj _ => "{...}"

/-- One row of the `deployments` table, restricted to the columns the
gateway reads (`backend/app/models/deployment.py`): `machine_id` and
`access_token` are nullable strings, `schedule_config` is a JSONB value
(the MCP configuration lives under `schedule_config["mcp_config"]`). -/
structure Deployment where
  id : String
  machine_id : Option String
  access_token : Option String
  schedule_config : JVal

/-- `SUPPORTED_PROTOCOL_VERSIONS` (mcp_streamable.py line 38). -/
def SUPPORTED_PROTOCOL_VERSIONS : List String :=
  ["2025-06-18", "2025-03-26", "2024-11-05"]

/-- `DEFAULT_PROTOCOL_VERSION` (mcp_streamable.py line 39). -/
def DEFAULT_PROTOCOL_VERSION : String := "2025-06-18"

/-- `_jsonrpc_error` (mcp_streamable.py lines 42-47). -/
def jsonrpc_error (msg_id : JVal) (code : Int) (message : String) : JVal :=
  .obj [("jsonrpc", .str "2.0"), ("id", msg_id),
        ("error", .obj [("code", .num code), ("message", .str message)])]

/-- `secrets.compare_digest`, modelled by its functional semantics
(string equality); its constant-time execution is an implementation
property of the Python standard library, outside this embedding. -/
def compare_digest (a b : String) : Bool := a == b

/-- Extraction of the bearer credential (mcp_streamable.py lines 226-231):
the `token` query parameter is preferred; otherwise a truthy
`Authorization` header is used, with every occurrence of `"Bearer "`
removed when the header starts with that prefix (Python `str.replace`). -/
def extract_access_token (token authorization : Option String) : Option String :=
  if !(pyTruthyStr token) && pyTruthyStr authorization then
    let a := authorization.getD ""
    if strStarts a "Bearer " then some (strReplace a "Bearer " "") else some a
  else token

/-- The credential test on line 244: `not access_token or not
deployment.access_token or not secrets.compare_digest(...)`, negated. -/
def token_ok (access_token stored : Option String) : Bool :=
  pyTruthyStr access_token && pyTruthyStr stored &&
    compare_digest (access_token.getD "") (stored.getD "")

/-- `protocol_version = mcp_protocol_version or DEFAULT_PROTOCOL_VERSION`
(line 253): a missing or empty header falls back to the default. -/
def negotiate_version (header : Option String) : String :=
  match header with
  | none => DEFAULT_PROTOCOL_VERSION
  | some v => if strEmpty v then DEFAULT_PROTOCOL_VERSION else v

/-- Body of the 400 response for an unsupported version (lines 256-266);
note it carries no `id` member, unlike `_jsonrpc_error`. -/
def version_error_body (pv : String) : JVal :=
  .obj [("jsonrpc", .str "2.0"),
        ("error", .obj
          [("code", .num (-32600)),
           ("message", .str ("Unsupported protocol version: " ++ pv)),
           ("data", .obj [("supported_versions",
              .arr (SUPPORTED_PROTOCOL_VERSIONS.map JVal.str))])])]

/-- Outcome of the shared authentication/version phase of
`handle_mcp_endpoint`: either an early JSON error response, or the call
proceeds to the GET/POST handler with the negotiated version. -/
inductive GateOutcome where
  | reject (status : Nat) (body : JVal) (headers : List (String × String))
  | proceed (protocol_version : String) (deployment : Deployment)

/-- `handle_mcp_endpoint` (mcp_streamable.py lines 205-266), up to the
dispatch on the HTTP method: deployment lookup (a malformed or unknown
identifier makes the database lookup return nothing), then the
credential check, then protocol-version validation.  The `db` oracle
stands for `_get_deployment`. -/
def handle_mcp_endpoint (db : String → Option Deployment) (deployment_id : String)
    (mcp_protocol_version : Option String) (token authorization : Option String) :
    GateOutcome :=
  match db deployment_id with
  | none =>
    .reject 404 (jsonrpc_error .null (-32001) ("Deployment not found: " ++ deployment_id))
      [("MCP-Protocol-Version", negotiate_version mcp_protocol_version)]
  | some deployment =>
    if !(token_ok (extract_access_token token authorization) deployment.access_token) then
      .reject 401 (jsonrpc_error .null (-32001) "Unauthorized: Invalid access token")
        [("MCP-Protocol-Version", negotiate_version mcp_protocol_version)]
    else
      let protocol_version := negotiate_version mcp_protocol_version
      if !(SUPPORTED_PROTOCOL_VERSIONS.contains protocol_version) then
        .reject 400 (version_error_body protocol_version) []
      else
        .proceed protocol_version deployment

example : extract_access_token none (some "Bearer abc") = some "abc" := rfl
example : extract_access_token (some "q") (some "Bearer abc") = some "q" := rfl
example : negotiate_version none = "2025-06-18" := rfl
example : SUPPORTED_PROTOCOL_VERSIONS.contains "1999-01-01" = false := rfl

/-- Body of a response the gateway sends back to its caller. -/
inductive RespBody where
  | empty
  | jsonBody (j : JVal)
  | buffered (content : String)
  | eventStream (content : String)

/-- A response the gateway sends back to its caller (FastAPI `Response`,
`JSONResponse` or `StreamingResponse`). -/
structure HttpResponse where
  status : Nat
  body : RespBody
  headers : List (String × String)
  media_type : Option String

/-- A response received from the remote backend (`httpx` upstream). -/
structure UpstreamResponse where
  status_code : Nat
  headers : List (String × String)
  body : String

/-- Case-insensitive header lookup (`httpx` header maps are
case-insensitive). -/
def header_get (hs : List (String × String)) (name : String) : Option String :=
  (hs.find? (fun p => strLower p.1 == strLower name)).map Prod.snd

/-- The fixed allow-list of upstream headers copied through by
`_do_forward` (mcp_streamable.py line 91). -/
def ALLOWED_UPSTREAM_HEADERS : List String := ["MCP-Protocol-Version", "Mcp-Session-Id"]

/-- The headers `_do_forward` copies from the upstream response:
each allow-listed name that is present upstream, with its value. -/
def forwarded_headers (upstream : UpstreamResponse) : List (String × String) :=
  ALLOWED_UPSTREAM_HEADERS.filterMap
    (fun h => (header_get upstream.headers h).map (fun v => (h, v)))

/-- `upstream.headers.get("content-type", "")` as read on line 96. -/
def upstream_content_type (upstream : UpstreamResponse) : String :=
  (header_get upstream.headers "content-type").getD ""

/-- `_do_forward` (mcp_streamable.py lines 87-111), given the upstream
response: an event-stream content type is passed through as a stream
with the upstream status and the allow-listed headers; anything else is
fully read (`aread`) and forwarded as one buffered response, with the
media type cut at the first `";"`. -/
def do_forward (upstream : UpstreamResponse) : HttpResponse :=
  let content_type := upstream_content_type upstream
  if strStarts (strLower content_type) "text/event-stream" then
    { status := upstream.status_code, body := .eventStream upstream.body,
      headers := forwarded_headers upstream, media_type := some "text/event-stream" }
  else
    { status := upstream.status_code, body := .buffered upstream.body,
      headers := forwarded_headers upstream,
      media_type :=
        if strEmpty content_type then none
        else some (String.mk (content_type.data.takeWhile (fun c => c != ';'))) }

/-- Outcome of one `_do_forward` delivery attempt as observed by the
caller: the upstream answered, `httpx.ConnectError` was raised, or some
other exception was raised. -/
inductive AttemptOutcome where
  | ok (upstream : UpstreamResponse)
  | connectError (msg : String)
  | failure (msg : String)

/-- A delivery target actually attempted by the bridge. -/
inductive DeliveryTarget where
  | internalDns
  | rawAddress (private_ip : JVal)

/-- Oracles for `_forward_to_fly_machine_streamable_http`: the relevant
settings, the outcome of the attempt against the internal-DNS URL, the
outcome of the Machines-API lookup (`FlyDeploymentService.get_machine`),
and the outcome of the attempt against the raw private address. -/
structure ForwardEnv where
  fly_api_token : Option String
  dnsAttempt : AttemptOutcome
  get_machine : Except String JVal
  ipAttempt : JVal → AttemptOutcome

/-- Result of the bridge together with the delivery attempts it actually
made (in order) and the number of Machines-API lookups it performed. -/
structure ForwardResult where
  response : HttpResponse
  attempts : List DeliveryTarget
  lookups : Nat

/-- A 502 `JSONResponse` with a `-32603` JSON-RPC error body, as built on
every failure path of the bridge. -/
def gateway_502 (msg_id : JVal) (message : String) (protocol_version : String) :
    HttpResponse :=
  { status := 502, body := .jsonBody (jsonrpc_error msg_id (-32603) message),
    headers := [("MCP-Protocol-Version", protocol_version)],
    media_type := some "application/json" }

/-- Private-address extraction (mcp_streamable.py lines 156-162):
`machine_info.get("private_ip")`, else the head of a non-empty
`machine_info.get("private_ips")` list; the caller then tests the result
for truthiness.  A non-dict lookup result leaves the address `None`. -/
def extract_private_ip (machine_info : JVal) : JVal :=
  match machine_info with
  | .obj fs =>
    let p := JObj.getPy fs "private_ip"
    if p.pyTruthy then p
    else
      match JObj.getPy fs "private_ips" with
      | .arr (x :: _) => x
      | _ => p
  | _ => .null

/-- `_forward_to_fly_machine_streamable_http` (mcp_streamable.py lines
62-200).  Delivery is attempted against the machine's internal DNS name
first.  Only `httpx.ConnectError` triggers the fallback: a Machines-API
lookup of the machine's private address followed by exactly one retry
against the raw address.  Every failure path returns a 502 response with
error code `-32603` whose message names the failure; any other
exception from the first attempt is returned as 502 directly, with no
lookup. -/
def forward_to_fly_machine (env : ForwardEnv) (message : JObj)
    (protocol_version : String) : ForwardResult :=
  let msg_id := JObj.getPy message "id"
  match env.dnsAttempt with
  | .ok upstream =>
    { response := do_forward upstream, attempts := [.internalDns], lookups := 0 }
  | .failure msg =>
    { response := gateway_502 msg_id ("Error connecting to MCP server: " ++ msg)
        protocol_version,
      attempts := [.internalDns], lookups := 0 }
  | .connectError msg =>
    if !(pyTruthyStr env.fly_api_token) then
      { response := gateway_502 msg_id
          ("Error connecting to MCP server (internal DNS failed and no FLY_API_TOKEN for lookup): "
            ++ msg) protocol_version,
        attempts := [.internalDns], lookups := 0 }
    else
      match env.get_machine with
      | .error lookup_error =>
        { response := gateway_502 msg_id
            ("Error connecting to MCP server (Machines API lookup failed): " ++ lookup_error)
            protocol_version,
          attempts := [.internalDns], lookups := 1 }
      | .ok machine_info =>
        let private_ip := extract_private_ip machine_info
        if !private_ip.pyTruthy then
          { response := gateway_502 msg_id
              "MCP server machine has no private IP address in Machines API response."
              protocol_version,
            attempts := [.internalDns], lookups := 1 }
        else
          match env.ipAttempt private_ip with
          | .ok upstream =>
            { response := do_forward upstream,
              attempts := [.internalDns, .rawAddress private_ip], lookups := 1 }
          | .connectError m2 =>
            { response := gateway_502 msg_id ("Error connecting to MCP server: " ++ m2)
                protocol_version,
              attempts := [.internalDns, .rawAddress private_ip], lookups := 1 }
          | .failure m2 =>
            { response := gateway_502 msg_id ("Error connecting to MCP server: " ++ m2)
                protocol_version,
              attempts := [.internalDns, .rawAddress private_ip], lookups := 1 }

/-- One value of the `active_sessions` map (mcp_streamable.py lines
441-445): the dict stored under keys `"deployment_id"`,
`"protocol_version"` and `"initialized"`. -/
structure SessionInfo where
  deployment_id : String
  protocol_version : String
  inited : Bool

/-- The process-wide `active_sessions` map (line 35). -/
abbrev SessionMap := List (String × SessionInfo)

/-- Dict assignment `active_sessions[k] = v`: the new binding shadows any
older one under `List.lookup`. -/
def insertSession (m : SessionMap) (k : String) (v : SessionInfo) : SessionMap :=
  (k, v) :: m

/-- Oracles for `process_jsonrpc_request`: the value of `str(uuid.uuid4())`
drawn for a new session, the set of deployment ids with a registered
`ServerProcess` (for `get_server`), and the abstract outcome of awaiting
`ServerProcess.call_tool` (an exception message or a returned JSON
response). -/
structure JsonRpcEnv where
  fresh_session_id : String
  servers : List String
  call_tool_outcome : Except String JVal

/-- `mcp_config` extraction (mcp_streamable.py line 434):
`deployment.schedule_config.get("mcp_config", {}) if
deployment.schedule_config else {}`. -/
def mcp_config_of (deployment : Deployment) : JObj :=
  if deployment.schedule_config.pyTruthy then
    (JObj.getD deployment.schedule_config.objFields "mcp_config" (.obj [])).objFields
  else []

/-- `mcp_config.get("tools", [])` (line 472). -/
def configured_tools_of (deployment : Deployment) : JVal :=
  JObj.getD (mcp_config_of deployment) "tools" (.arr [])

/-- `mcp_config.get("resources", [])` (line 532). -/
def configured_resources_of (deployment : Deployment) : JVal :=
  JObj.getD (mcp_config_of deployment) "resources" (.arr [])

/-- `mcp_config.get("prompts", [])` (line 545). -/
def configured_prompts_of (deployment : Deployment) : JVal :=
  JObj.getD (mcp_config_of deployment) "prompts" (.arr [])

/-- A JSON-RPC success envelope `{"jsonrpc": "2.0", "id": ..., "result": ...}`. -/
def jsonrpc_result (msg_id : JVal) (result : JVal) : JVal :=
  .obj [("jsonrpc", .str "2.0"), ("id", msg_id), ("result", result)]

/-- `process_jsonrpc_request` (mcp_streamable.py lines 414-564).  Returns
the JSON-RPC response body together with the updated session map.  The
handshake method allocates a fresh session only when the caller supplied
no (truthy) session id; the listing methods read the deployment's stored
configuration; `tools/call` is forwarded to the registered local server
process, with exceptions mapped to a `-32603` error. -/
def process_jsonrpc_request (env : JsonRpcEnv) (deployment : Deployment)
    (deployment_id : String) (message : JObj) (session_id : Option String)
    (protocol_version : String) (sessions : SessionMap) : JVal × SessionMap :=
  let method := JObj.getPy message "method"
  let msg_id := JObj.getPy message "id"
  if method.eqStr "initialize" then
    let sid := if !(pyTruthyStr session_id) then env.fresh_session_id
               else session_id.getD ""
    let sessions' :=
      if !(pyTruthyStr session_id) then
        insertSession sessions env.fresh_session_id
          { deployment_id := deployment_id, protocol_version := protocol_version,
            inited := true }
      else sessions
    (jsonrpc_result msg_id (.obj
      [("protocolVersion", .str protocol_version),
       ("capabilities", .obj
         [("tools", .obj []), ("resources", .obj []),
          ("prompts", .obj []), ("logging", .obj [])]),
       ("serverInfo", .obj
         [("name", .str "Catwalk Live Mock Server"), ("version", .str "0.2.0")]),
       ("_meta", .obj [("sessionId", .str sid)])]), sessions')
  else if method.eqStr "tools/list" then
    (jsonrpc_result msg_id (.obj [("tools", configured_tools_of deployment)]), sessions)
  else if method.eqStr "tools/call" then
    if !(env.servers.contains deployment_id) then
      (jsonrpc_error msg_id (-32603)
        "MCP server not running for this deployment. Try recreating the deployment.",
       sessions)
    else
      match env.call_tool_outcome with
      | .ok response => (response, sessions)
      | .error e => (jsonrpc_error msg_id (-32603) ("Error executing tool: " ++ e), sessions)
  else if method.eqStr "ping" then
    (jsonrpc_result msg_id (.obj []), sessions)
  else if method.eqStr "resources/list" then
    (jsonrpc_result msg_id (.obj [("resources", configured_resources_of deployment)]), sessions)
  else if method.eqStr "prompts/list" then
    (jsonrpc_result msg_id (.obj [("prompts", configured_prompts_of deployment)]), sessions)
  else
    (jsonrpc_error msg_id (-32601) ("Method not found: " ++ method.pyStr), sessions)

/-- `handle_post_message` (mcp_streamable.py lines 327-411), given an
already-parsed JSON object body (a body that fails to parse is answered
earlier with a 400 parse error).  A deployment with a truthy
`machine_id` has the whole message forwarded to its remote machine;
otherwise notifications (`id` is `None`, `method` present) and
caller-originated responses (a `result` or `error` member) are
acknowledged with an empty 202, and remaining requests are processed
into a 200 JSON response. -/
def handle_post_message (fenv : ForwardEnv) (jenv : JsonRpcEnv)
    (db : String → Option Deployment) (deployment_id : String) (body : JObj)
    (session_id : Option String) (protocol_version : String)
    (sessions : SessionMap) : HttpResponse × SessionMap :=
  let method := JObj.getPy body "method"
  let msg_id := JObj.getPy body "id"
  match db deployment_id with
  | none =>
    ({ status := 404,
       body := .jsonBody (jsonrpc_error msg_id (-32001)
         ("Deployment not found: " ++ deployment_id)),
       headers := [("MCP-Protocol-Version", protocol_version)],
       media_type := some "application/json" }, sessions)
  | some deployment =>
    if pyTruthyStr deployment.machine_id then
      ((forward_to_fly_machine fenv body protocol_version).response, sessions)
    else
      if msg_id.isNull && !method.isNull then
        ({ status := 202, body := .empty,
           headers := [("MCP-Protocol-Version", protocol_version)],
           media_type := none }, sessions)
      else if JObj.hasKey body "result" || JObj.hasKey body "error" then
        ({ status := 202, body := .empty,
           headers := [("MCP-Protocol-Version", protocol_version)],
           media_type := none }, sessions)
      else
        let (response_data, sessions') :=
          process_jsonrpc_request jenv deployment deployment_id body session_id
            protocol_version sessions
        ({ status := 200, body := .jsonBody response_data,
           headers := [("MCP-Protocol-Version", protocol_version)],
           media_type := some "application/json" }, sessions')

/-- The full POST pipeline: the authentication/version gate of
`handle_mcp_endpoint` followed by `handle_post_message` (which repeats
the deployment lookup, as the source does). -/
def handle_mcp_endpoint_post (fenv : ForwardEnv) (jenv : JsonRpcEnv)
    (db : String → Option Deployment) (deployment_id : String) (body : JObj)
    (mcp_protocol_version : Option String) (mcp_session_id : Option String)
    (token authorization : Option String) (sessions : SessionMap) :
    HttpResponse × SessionMap :=
  match handle_mcp_endpoint db deployment_id mcp_protocol_version token authorization with
  | .reject status errBody hdrs =>
    ({ status := status, body := .jsonBody errBody, headers := hdrs,
       media_type := some "application/json" }, sessions)
  | .proceed protocol_version _ =>
    handle_post_message fenv jenv db deployment_id body mcp_session_id
      protocol_version sessions

/-- State of `mcp_process_manager`: the global `_running_servers` dict
(deployment id mapped to a server-instance tag) together with the number
of subprocess launches performed so far (`ServerProcess.start` calls). -/
structure ManagerState where
  running_servers : List (String × Nat)
  spawn_count : Nat

/-- The deployment ids currently registered. -/
def mkeys (m : List (String × Nat)) : List String := m.map Prod.fst

/-- `start_server` (mcp_process_manager.py lines 243-267): if the
deployment already has a registered server, return success immediately
without launching anything; otherwise launch one subprocess
(`server.start()`, whose success is the `start_ok` oracle) and register
the new `ServerProcess` only on success. -/
def start_server (st : ManagerState) (deployment_id : String) (start_ok : Bool) :
    ManagerState × Bool :=
  if (List.lookup deployment_id st.running_servers).isSome then (st, true)
  else
    if start_ok then
      ({ running_servers := (deployment_id, st.spawn_count) :: st.running_servers,
         spawn_count := st.spawn_count + 1 }, true)
    else
      ({ st with spawn_count := st.spawn_count + 1 }, false)

/-- `stop_server` (lines 270-274): `_running_servers.pop(deployment_id,
None)` removes the deployment's entry (the first binding, matching dict
semantics) and stops that process. -/
def stop_server (st : ManagerState) (deployment_id : String) : ManagerState :=
  { st with running_servers :=
      st.running_servers.eraseP (fun p => p.1 == deployment_id) }

/-- One operation against the process manager. -/
inductive ManagerOp where
  | start (deployment_id : String) (start_ok : Bool)
  | stop (deployment_id : String)

/-- Run a sequence of `start_server` / `stop_server` calls. -/
def runOps (st : ManagerState) : List ManagerOp → ManagerState
  | [] => st
  | .start deployment_id ok :: rest => runOps (start_server st deployment_id ok).1 rest
  | .stop deployment_id :: rest => runOps (stop_server st deployment_id) rest

theorem lookup_none_not_mem_mkeys (m : List (String × Nat)) (k : String)
    (h : List.lookup k m = none) : k ∉ mkeys m := by
  induction m with
  | nil => simp [mkeys]
  | cons a t ih =>
    simp only [List.lookup] at h
    by_cases hk : k = a.1
    · simp [hk, beq_self_eq_true] at h
    · have hbeq : (k == a.1) = false := beq_eq_false_iff_ne.mpr hk
      rw [hbeq] at h
      simp only [mkeys, List.map_cons, List.mem_cons]
      rintro (h1 | h2)
      · exact hk h1
      · exact (ih h) h2

theorem start_server_nodup (st : ManagerState) (deployment_id : String) (ok : Bool)
    (h : (mkeys st.running_servers).Nodup) :
    (mkeys (start_server st deployment_id ok).1.running_servers).Nodup := by
  unfold start_server
  cases hl : (List.lookup deployment_id st.running_servers) with
  | some v => simp [hl, h]
  | none =>
    cases ok with
    | true =>
      simp only [hl, Option.isSome_none, Bool.false_eq_true, if_false, if_true]
      exact List.Nodup.cons (lookup_none_not_mem_mkeys _ _ hl) h
    | false => simp [hl, h]

theorem stop_server_nodup (st : ManagerState) (deployment_id : String)
    (h : (mkeys st.running_servers).Nodup) :
    (mkeys (stop_server st deployment_id).running_servers).Nodup := by
  unfold stop_server mkeys
  exact ((List.eraseP_sublist _).map Prod.fst).nodup h

theorem runOps_nodup (ops : List ManagerOp) (st : ManagerState)
    (h : (mkeys st.running_servers).Nodup) :
    (mkeys (runOps st ops).running_servers).Nodup := by
  induction ops generalizing st with
  | nil => exact h
  | cons op rest ih =>
    cases op with
    | start d ok => exact ih _ (start_server_nodup st d ok h)
    | stop d => exact ih _ (stop_server_nodup st d h)

/-- Behaviour of the child process's stdout during one call, relative to
the 30-second deadline: a line arrives within 30 s (with the outcome of
`json.loads` on it), a line arrives only after 30 s, the stream reaches
EOF (readline returns empty) within or after 30 s, or nothing ever
arrives. -/
inductive ReadBehavior where
  | lineWithin30 (parsed : Except String JVal)
  | lineAfter30 (parsed : Except String JVal)
  | eofWithin30
  | eofAfter30
  | neverResponds

/-- One observable I/O event of `ServerProcess.call_tool`:
`writeFrame j` is the single `stdin.write(json.dumps(j) + "\n")`;
`readFramedLine t` is one awaited `stdout.readline()`, guarded by
`asyncio.wait_for` with timeout `t` seconds when `t` is present and
unguarded (blocking) when it is not. -/
inductive IOEvent where
  | acquireLock
  | writeFrame (payload : JVal)
  | readFramedLine (timeout_secs : Option Nat)
  | releaseLock

/-- Overall result of one `call_tool` invocation: an exception propagated
to the caller, a call that never returns, or a normal return carrying
the trace of I/O events and the JSON-RPC response. -/
inductive CallResult where
  | raised (msg : String)
  | hangs
  | returns (trace : List IOEvent) (response : JVal)

/-- The JSON-RPC request dict built on mcp_process_manager.py lines
141-146. -/
def rpc_request (method : String) (params : JVal) (msg_id : JVal) : JVal :=
  .obj [("jsonrpc", .str "2.0"), ("id", msg_id),
        ("method", .str method), ("params", params)]

/-- The I/O trace of one completed `call_tool` exchange: lock acquired,
exactly one newline-framed message written, exactly one framed line
awaited (with the given timeout guard), lock released last. -/
def call_trace (timeout_secs : Option Nat) (method : String) (params : JVal)
    (msg_id : JVal) : List IOEvent :=
  [.acquireLock, .writeFrame (rpc_request method params msg_id),
   .readFramedLine timeout_secs, .releaseLock]

/-- `ServerProcess.call_tool` (mcp_process_manager.py lines 123-206).
The guard on line 135 raises before the lock is touched when the process
is not running.  Otherwise the exchange runs under `async with
self.lock`, every exception inside is caught and mapped to a `-32603`
internal error (lines 158-167), and the lock is released in every
completed outcome.  On the Unix path (`_call_tool_unix`) the read is
`asyncio.wait_for(..., timeout=30.0)`, so a late or absent line raises
`asyncio.TimeoutError` (whose `str` is empty) and an EOF raises
`RuntimeError("MCP server closed stdout")`.  On the Windows path
(`_call_tool_windows`) the same single write and single blocking
`readline` run on a worker thread with no timeout guard, so a backend
that never responds leaves the call (and the lock) hanging. -/
def call_tool (is_windows : Bool) (process_running : Bool)
    (behavior : ReadBehavior) (method : String) (params : JVal) (msg_id : JVal) :
    CallResult :=
  if !process_running then
    .raised "MCP server not running for deployment"
  else if is_windows then
    match behavior with
    | .lineWithin30 (.ok j) => .returns (call_trace none method params msg_id) j
    | .lineWithin30 (.error e) =>
      .returns (call_trace none method params msg_id)
        (jsonrpc_error msg_id (-32603) ("Internal error: " ++ e))
    | .lineAfter30 (.ok j) => .returns (call_trace none method params msg_id) j
    | .lineAfter30 (.error e) =>
      .returns (call_trace none method params msg_id)
        (jsonrpc_error msg_id (-32603) ("Internal error: " ++ e))
    | .eofWithin30 =>
      .returns (call_trace none method params msg_id)
        (jsonrpc_error msg_id (-32603) "Internal error: MCP server closed stdout")
    | .eofAfter30 =>
      .returns (call_trace none method params msg_id)
        (jsonrpc_error msg_id (-32603) "Internal error: MCP server closed stdout")
    | .neverResponds => .hangs
  else
    match behavior with
    | .lineWithin30 (.ok j) => .returns (call_trace (some 30) method params msg_id) j
    | .lineWithin30 (.error e) =>
      .returns (call_trace (some 30) method params msg_id)
        (jsonrpc_error msg_id (-32603) ("Internal error: " ++ e))
    | .eofWithin30 =>
      .returns (call_trace (some 30) method params msg_id)
        (jsonrpc_error msg_id (-32603) "Internal error: MCP server closed stdout")
    | .lineAfter30 _ =>
      .returns (call_trace (some 30) method params msg_id)
        (jsonrpc_error msg_id (-32603) "Internal error: ")
    | .eofAfter30 =>
      .returns (call_trace (some 30) method params msg_id)
        (jsonrpc_error msg_id (-32603) "Internal error: ")
    | .neverResponds =>
      .returns (call_trace (some 30) method params msg_id)
        (jsonrpc_error msg_id (-32603) "Internal error: ")

/-- A concrete tool descriptor used in example deployments. -/
def sampleTool : JVal := .obj [("name", .str "get_tasks")]

/-- A local-mode deployment (`machine_id` unset) with one configured tool. -/
def dep_local : Deployment :=
  { id := "d1", machine_id := none, access_token := some "secret1",
    schedule_config := .obj [("mcp_config", .obj [("tools", .arr [sampleTool])])] }

/-- A local-mode deployment with an empty configured tool list. -/
def dep_local2 : Deployment :=
  { id := "d1b", machine_id := none, access_token := some "secret1",
    schedule_config := .obj [("mcp_config", .obj [("tools", .arr [])])] }

/-- A remote-mode deployment (`machine_id` set). -/
def dep_remote : Deployment :=
  { id := "d2", machine_id := some "machine-1", access_token := some "secret2",
    schedule_config := .null }

/-- A deployment whose stored access token is the empty string. -/
def dep_open : Deployment :=
  { id := "d3", machine_id := none, access_token := some "",
    schedule_config := .null }

/-- A concrete deployment directory. -/
def db_fixture : String → Option Deployment := fun i =>
  if i == "d1" then some dep_local
  else if i == "d2" then some dep_remote
  else if i == "d3" then some dep_open
  else none

/-- A forwarding environment in which the internal-DNS attempt raises a
connection error and no Machines-API token is configured. -/
def fenv_down : ForwardEnv :=
  { fly_api_token := none, dnsAttempt := .connectError "connection refused",
    get_machine := .error "api down", ipAttempt := fun _ => .failure "late failure" }

/-- A concrete JSON-RPC processing environment. -/
def jenv0 : JsonRpcEnv :=
  { fresh_session_id := "fresh-session-1", servers := [],
    call_tool_outcome := .error "boom" }

/-- A concrete handshake request. -/
def msg_init1 : JObj :=
  [("jsonrpc", .str "2.0"), ("id", .num 1), ("method", .str "initialize")]

/-- A concrete capability-listing request. -/
def msg_list1 : JObj :=
  [("jsonrpc", .str "2.0"), ("id", .num 2), ("method", .str "tools/list")]

/-- C2: an unknown deployment identifier is answered 404 with a
structured JSON-RPC error body, and that decision is independent of any
credential the caller supplies (it is taken before the credential
comparison); a known deployment with a missing or mismatched bearer
credential — the query parameter being preferred over the
`Authorization` header — is answered 401 with a structured error body
and the call never proceeds to message processing.  The comparison
itself is `secrets.compare_digest`, modelled functionally. -/
theorem C2_auth_gate (db : String → Option Deployment) (deployment_id : String)
    (pv : Option String) (token authorization : Option String) :
    (db deployment_id = none →
      handle_mcp_endpoint db deployment_id pv token authorization =
        .reject 404
          (jsonrpc_error .null (-32001) ("Deployment not found: " ++ deployment_id))
          [("MCP-Protocol-Version", negotiate_version pv)] ∧
      ∀ token2 authorization2,
        handle_mcp_endpoint db deployment_id pv token authorization =
          handle_mcp_endpoint db deployment_id pv token2 authorization2) ∧
    (∀ deployment, db deployment_id = some deployment →
      token_ok (extract_access_token token authorization) deployment.access_token = false →
      handle_mcp_endpoint db deployment_id pv token authorization =
        .reject 401 (jsonrpc_error .null (-32001) "Unauthorized: Invalid access token")
          [("MCP-Protocol-Version", negotiate_version pv)]) ∧
    (pyTruthyStr token = true → extract_access_token token authorization = token) := by
  refine ⟨fun h => ⟨?_, ?_⟩, fun deployment hd hbad => ?_, fun ht => ?_⟩
  · simp [handle_mcp_endpoint, h]
  · intro token2 authorization2
    simp [handle_mcp_endpoint, h]
  · simp [handle_mcp_endpoint, hd, hbad]
  · simp [extract_access_token, ht]

/-- C2 witness: the 404 and 401 branches at concrete inputs. -/
theorem C2_auth_gate_witness :
    handle_mcp_endpoint (fun _ => none) "dx" none (some "tok") none =
      .reject 404 (jsonrpc_error .null (-32001) ("Deployment not found: " ++ "dx"))
        [("MCP-Protocol-Version", negotiate_version none)] ∧
    handle_mcp_endpoint db_fixture "d1" none (some "wrong") none =
      .reject 401 (jsonrpc_error .null (-32001) "Unauthorized: Invalid access token")
        [("MCP-Protocol-Version", negotiate_version none)] :=
  ⟨((C2_auth_gate (fun _ => none) "dx" none (some "tok") none).1 rfl).1,
   (C2_auth_gate db_fixture "d1" none (some "wrong") none).2.1 dep_local rfl rfl⟩

/-- C8: with authentication passed, a missing protocol-version header
negotiates the documented default; a supported header value is used as
supplied; a non-empty unsupported value is answered 400 with a body
whose error code is `-32600` and whose error data lists the supported
versions (an empty header value is falsy in Python and hence treated as
absent); and the gate only ever proceeds with exactly the supplied
version or, when the header is absent or empty, the default — it never
downgrades or guesses. -/
theorem C8_version_negotiation (db : String → Option Deployment)
    (deployment_id : String) (token authorization : Option String)
    (deployment : Deployment) (hdb : db deployment_id = some deployment)
    (hok : token_ok (extract_access_token token authorization) deployment.access_token
      = true) :
    (handle_mcp_endpoint db deployment_id none token authorization =
      .proceed DEFAULT_PROTOCOL_VERSION deployment) ∧
    (∀ v, SUPPORTED_PROTOCOL_VERSIONS.contains v = true →
      handle_mcp_endpoint db deployment_id (some v) token authorization =
        .proceed v deployment) ∧
    (∀ v, strEmpty v = false → SUPPORTED_PROTOCOL_VERSIONS.contains v = false →
      handle_mcp_endpoint db deployment_id (some v) token authorization =
        .reject 400 (version_error_body v) []) ∧
    (∀ pvh v d2,
      handle_mcp_endpoint db deployment_id pvh token authorization = .proceed v d2 →
      pvh = some v ∨ ((pvh = none ∨ pvh = some "") ∧ v = DEFAULT_PROTOCOL_VERSION)) := by
  refine ⟨?_, fun v hv => ?_, fun v hne hv => ?_, fun pvh v d2 hp => ?_⟩
  · simp only [handle_mcp_endpoint, hdb, hok, negotiate_version]
    simp
    all_goals decide
  · have hne : strEmpty v = false := by
      simp [SUPPORTED_PROTOCOL_VERSIONS] at hv
      rcases hv with h | h | h <;> subst h <;> rfl
    have hv2 : v ∈ SUPPORTED_PROTOCOL_VERSIONS := by simpa using hv
    simp [handle_mcp_endpoint, hdb, hok, negotiate_version, hne, hv2]
  · have hv2 : v ∉ SUPPORTED_PROTOCOL_VERSIONS := by simpa using hv
    simp [handle_mcp_endpoint, hdb, hok, negotiate_version, hne, hv2]
  · have hver : v = negotiate_version pvh := by
      unfold handle_mcp_endpoint at hp
      rw [hdb] at hp
      simp only [hok, Bool.not_true, Bool.false_eq_true, if_false] at hp
      by_cases hc : SUPPORTED_PROTOCOL_VERSIONS.contains (negotiate_version pvh) = true
      · rw [hc] at hp
        simp only [Bool.not_true, Bool.false_eq_true, if_false] at hp
        cases hp
        rfl
      · rw [Bool.not_eq_true] at hc
        rw [hc] at hp
        simp only [Bool.not_false, if_true] at hp
        cases hp
    subst hver
    match pvh with
    | none => exact Or.inr ⟨Or.inl rfl, rfl⟩
    | some w =>
      by_cases hw : strEmpty w = true
      · refine Or.inr ⟨Or.inr ?_, by simp [negotiate_version, hw]⟩
        cases w with
        | mk data =>
          cases data with
          | nil => rfl
          | cons c cs => simp [strEmpty] at hw
      · rw [Bool.not_eq_true] at hw
        exact Or.inl (by simp [negotiate_version, hw])

/-- C8 witness: the scenario from the spec — unsupported version
`"1999-01-01"` on an authenticated call is answered 400 with the
`-32600` body listing the supported versions; a missing header proceeds
with the default. -/
theorem C8_version_negotiation_witness :
    handle_mcp_endpoint db_fixture "d1" (some "1999-01-01") (some "secret1") none =
      .reject 400 (version_error_body "1999-01-01") [] ∧
    handle_mcp_endpoint db_fixture "d1" none (some "secret1") none =
      .proceed DEFAULT_PROTOCOL_VERSION dep_local :=
  ⟨(C8_version_negotiation db_fixture "d1" (some "secret1") none dep_local rfl
      rfl).2.2.1 "1999-01-01" rfl rfl,
   (C8_version_negotiation db_fixture "d1" (some "secret1") none dep_local rfl rfl).1⟩

/-- C10: a known deployment whose stored access token is unset (`None`)
or empty is answered 401 on every call, whatever credential the caller
supplies — the deployment is unreachable through the gateway, not open. -/
theorem C10_empty_token_unreachable (db : String → Option Deployment)
    (deployment_id : String) (pv : Option String)
    (token authorization : Option String) (deployment : Deployment)
    (hdb : db deployment_id = some deployment)
    (hempty : deployment.access_token = none ∨ deployment.access_token = some "") :
    handle_mcp_endpoint db deployment_id pv token authorization =
      .reject 401 (jsonrpc_error .null (-32001) "Unauthorized: Invalid access token")
        [("MCP-Protocol-Version", negotiate_version pv)] := by
  have hstored : pyTruthyStr deployment.access_token = false := by
    rcases hempty with h | h <;> rw [h] <;> rfl
  simp [handle_mcp_endpoint, hdb, token_ok, hstored]

/-- C10 witness: the empty-token deployment rejects even a caller who
presents the very same empty string. -/
theorem C10_empty_token_unreachable_witness :
    handle_mcp_endpoint db_fixture "d3" none (some "anything") none =
      .reject 401 (jsonrpc_error .null (-32001) "Unauthorized: Invalid access token")
        [("MCP-Protocol-Version", negotiate_version none)] :=
  C10_empty_token_unreachable db_fixture "d3" none (some "anything") none dep_open
    rfl (Or.inr rfl)

/-- C1 counterexample: the claim quantifies over every hosting mode, but
a deployment with a machine id forwards even notifications to the remote
machine instead of acknowledging them.  Concretely: an authenticated
POST of the notification `{"jsonrpc": "2.0", "method":
"notifications/progress"}` (no `id`) to the remote-mode deployment,
in an environment where the internal-DNS delivery raises a connection
error and no Machines-API token is configured, is answered 502 — not
202. -/
theorem C1_remote_notification_not_202 :
    (handle_mcp_endpoint_post fenv_down jenv0 db_fixture "d2"
        [("jsonrpc", .str "2.0"), ("method", .str "notifications/progress")]
        none none (some "secret2") none []).1.status = 502 ∧
    (handle_mcp_endpoint_post fenv_down jenv0 db_fixture "d2"
        [("jsonrpc", .str "2.0"), ("method", .str "notifications/progress")]
        none none (some "secret2") none []).1.status ≠ 202 :=
  ⟨rfl, by decide⟩

/-- C1 (amended): for every deployment without a (truthy) machine id —
i.e. every locally served deployment — a POSTed message with no `id` and
a `method` (a notification) is answered 202 with an empty body and no
session-state change, and a message whose `method` is absent and which
carries a `result` or `error` member (a caller-originated response) is
likewise answered 202 with an empty body and is never answered again.
Remote-mode deployments instead have the message forwarded to the
machine, and the gateway returns the forwarding outcome. -/
theorem C1_local_notification_and_response_ack (fenv : ForwardEnv)
    (jenv : JsonRpcEnv) (db : String → Option Deployment) (deployment_id : String)
    (body : JObj) (session_id : Option String) (pv : String)
    (sessions : SessionMap) (deployment : Deployment)
    (hdb : db deployment_id = some deployment)
    (hlocal : pyTruthyStr deployment.machine_id = false) :
    ((JObj.getPy body "id").isNull = true → (JObj.getPy body "method").isNull = false →
      handle_post_message fenv jenv db deployment_id body session_id pv sessions =
        ({ status := 202, body := .empty,
           headers := [("MCP-Protocol-Version", pv)], media_type := none }, sessions)) ∧
    ((JObj.getPy body "method").isNull = true →
      (JObj.hasKey body "result" || JObj.hasKey body "error") = true →
      handle_post_message fenv jenv db deployment_id body session_id pv sessions =
        ({ status := 202, body := .empty,
           headers := [("MCP-Protocol-Version", pv)], media_type := none }, sessions)) := by
  constructor
  · intro hid hmethod
    simp [handle_post_message, hdb, hlocal, hid, hmethod]
  · intro hmethod hresp
    simp [handle_post_message, hdb, hlocal, hmethod, hresp]

/-- C1 witness: a concrete notification and a concrete caller response
against the local deployment are both acknowledged with an empty 202. -/
theorem C1_local_ack_witness :
    handle_post_message fenv_down jenv0 db_fixture "d1"
        [("jsonrpc", .str "2.0"), ("method", .str "notifications/progress")]
        none "2025-06-18" [] =
      ({ status := 202, body := .empty,
         headers := [("MCP-Protocol-Version", "2025-06-18")], media_type := none }, []) ∧
    handle_post_message fenv_down jenv0 db_fixture "d1"
        [("jsonrpc", .str "2.0"), ("id", .num 9), ("result", .obj [])]
        none "2025-06-18" [] =
      ({ status := 202, body := .empty,
         headers := [("MCP-Protocol-Version", "2025-06-18")], media_type := none }, []) :=
  ⟨(C1_local_notification_and_response_ack fenv_down jenv0 db_fixture "d1"
      [("jsonrpc", .str "2.0"), ("method", .str "notifications/progress")]
      none "2025-06-18" [] dep_local rfl rfl).1 rfl rfl,
   (C1_local_notification_and_response_ack fenv_down jenv0 db_fixture "d1"
      [("jsonrpc", .str "2.0"), ("id", .num 9), ("result", .obj [])]
      none "2025-06-18" [] dep_local rfl rfl).2 rfl rfl⟩

/-- C3 counterexample: the handshake does not return the deployment's
capability manifest.  For the concrete deployment whose configured tool
manifest is `[sampleTool]`, the handshake response's
`result.capabilities.tools` is the fixed empty object `{}` rather than
the configured manifest, and the whole handshake response is identical
to the one produced for a deployment with a different (empty) manifest —
so the response cannot carry the deployment's manifest. -/
theorem C3_init_ignores_manifest :
    JVal.getPath
        (process_jsonrpc_request jenv0 dep_local "d1" msg_init1 none "2025-06-18" []).1
        ["result", "capabilities", "tools"] = some (.obj []) ∧
    configured_tools_of dep_local = .arr [sampleTool] ∧
    JVal.obj [] ≠ JVal.arr [sampleTool] ∧
    (process_jsonrpc_request jenv0 dep_local "d1" msg_init1 none "2025-06-18" []).1 =
      (process_jsonrpc_request jenv0 dep_local2 "d1" msg_init1 none "2025-06-18" []).1 ∧
    configured_tools_of dep_local ≠ configured_tools_of dep_local2 := by
  refine ⟨rfl, rfl, by simp, rfl, ?_⟩
  show JVal.arr [sampleTool] ≠ JVal.arr []
  simp

/-- C3 (amended): on a handshake request (`method = "initialize"`) the
gateway always returns a success envelope (a `result`, never an `error`)
that echoes the negotiated protocol version and carries a fixed
capability declaration plus the session identifier; when the caller
presents no (truthy) session id, a fresh opaque identifier (the
`uuid.uuid4()` draw) is inserted into the session map and returned,
while a repeated handshake carrying a session id is accepted unchanged:
it echoes that id and leaves the session map as it was. -/
theorem C3_handshake_session_allocation (jenv : JsonRpcEnv)
    (deployment : Deployment) (deployment_id : String) (message : JObj)
    (session_id : Option String) (pv : String) (sessions : SessionMap)
    (hm : JObj.get message "method" = some (.str "initialize")) :
    JVal.getPath
        (process_jsonrpc_request jenv deployment deployment_id message session_id pv
          sessions).1 ["result", "protocolVersion"] = some (.str pv) ∧
    JObj.hasKey
        (process_jsonrpc_request jenv deployment deployment_id message session_id pv
          sessions).1.objFields "result" = true ∧
    JObj.hasKey
        (process_jsonrpc_request jenv deployment deployment_id message session_id pv
          sessions).1.objFields "error" = false ∧
    JVal.getPath
        (process_jsonrpc_request jenv deployment deployment_id message session_id pv
          sessions).1 ["result", "capabilities"] = some (.obj
            [("tools", .obj []), ("resources", .obj []),
             ("prompts", .obj []), ("logging", .obj [])]) ∧
    (pyTruthyStr session_id = false →
      JVal.getPath
          (process_jsonrpc_request jenv deployment deployment_id message session_id pv
            sessions).1 ["result", "_meta", "sessionId"] =
        some (.str jenv.fresh_session_id) ∧
      (process_jsonrpc_request jenv deployment deployment_id message session_id pv
          sessions).2 =
        insertSession sessions jenv.fresh_session_id
          { deployment_id := deployment_id, protocol_version := pv, inited := true }) ∧
    (pyTruthyStr session_id = true →
      JVal.getPath
          (process_jsonrpc_request jenv deployment deployment_id message session_id pv
            sessions).1 ["result", "_meta", "sessionId"] =
        some (.str (session_id.getD "")) ∧
      (process_jsonrpc_request jenv deployment deployment_id message session_id pv
          sessions).2 = sessions) := by
  have hgetpy : JObj.getPy message "method" = .str "initialize" := by
    simp [JObj.getPy, hm]
  refine ⟨?_, ?_, ?_, ?_, fun hs => ⟨?_, ?_⟩, fun hs => ⟨?_, ?_⟩⟩
  · simp only [process_jsonrpc_request, hgetpy]
    rfl
  · simp only [process_jsonrpc_request, hgetpy]
    rfl
  · simp only [process_jsonrpc_request, hgetpy]
    rfl
  · simp only [process_jsonrpc_request, hgetpy]
    rfl
  · simp only [process_jsonrpc_request, hgetpy, hs]
    rfl
  · simp only [process_jsonrpc_request, hgetpy, hs]
    rfl
  · simp only [process_jsonrpc_request, hgetpy, hs]
    rfl
  · simp only [process_jsonrpc_request, hgetpy, hs]
    rfl

/-- C3 witness: the concrete handshake on the local deployment with no
session id allocates and returns the fresh session identifier. -/
theorem C3_handshake_witness :
    JVal.getPath
        (process_jsonrpc_request jenv0 dep_local "d1" msg_init1 none "2025-06-18" []).1
        ["result", "_meta", "sessionId"] = some (.str "fresh-session-1") ∧
    (process_jsonrpc_request jenv0 dep_local "d1" msg_init1 none "2025-06-18" []).2 =
      [("fresh-session-1",
        { deployment_id := "d1", protocol_version := "2025-06-18", inited := true })] :=
  (C3_handshake_session_allocation jenv0 dep_local "d1" msg_init1 none "2025-06-18" []
    rfl).2.2.2.2.1 rfl

/-- C7: on a local-mode deployment, a handshake call followed immediately
by a capability-listing call (running on the session map the handshake
produced) answers with exactly the tool manifest stored in the
deployment's configuration record, unmodified. -/
theorem C7_roundtrip_tools_list (jenvA jenvB : JsonRpcEnv)
    (deployment : Deployment) (deployment_id : String) (msgInit msgList : JObj)
    (sidA sidB : Option String) (pvA pvB : String) (sessions : SessionMap)
    (_hm1 : JObj.get msgInit "method" = some (.str "initialize"))
    (hm2 : JObj.get msgList "method" = some (.str "tools/list")) :
    JVal.getPath
        (process_jsonrpc_request jenvB deployment deployment_id msgList sidB pvB
          (process_jsonrpc_request jenvA deployment deployment_id msgInit sidA pvA
            sessions).2).1
        ["result", "tools"] = some (configured_tools_of deployment) := by
  have hgetpy : JObj.getPy msgList "method" = .str "tools/list" := by
    simp [JObj.getPy, hm2]
  generalize (process_jsonrpc_request jenvA deployment deployment_id msgInit sidA pvA
    sessions).2 = s0
  simp only [process_jsonrpc_request, hgetpy]
  rfl

/-- C7 witness: on the concrete deployment the round trip returns the
stored one-element manifest. -/
theorem C7_roundtrip_tools_list_witness :
    JVal.getPath
        (process_jsonrpc_request jenv0 dep_local "d1" msg_list1 none "2025-06-18"
          (process_jsonrpc_request jenv0 dep_local "d1" msg_init1 none "2025-06-18"
            []).2).1
        ["result", "tools"] = some (.arr [sampleTool]) :=
  C7_roundtrip_tools_list jenv0 jenv0 dep_local "d1" msg_init1 msg_list1 none none
    "2025-06-18" "2025-06-18" [] rfl rfl

/-- A concrete upstream event-stream response. -/
def upstream_sse : UpstreamResponse :=
  { status_code := 200,
    headers := [("content-type", "text/event-stream; charset=utf-8"),
                ("Mcp-Session-Id", "s1"), ("x-other", "y")],
    body := "data: hi" }

/-- C9: a backend response whose content type is an event stream is
passed through as a stream, preserving the upstream status, the body
verbatim and exactly the allow-listed headers; any other content type is
fully buffered and forwarded as a single response with the upstream
status (media type cut at the first `";"`).  The forwarded headers are
characterised exactly: a pair is forwarded iff its name is on the fixed
allow-list and the upstream response carries it. -/
theorem C9_content_negotiation (upstream : UpstreamResponse) :
    (strStarts (strLower (upstream_content_type upstream)) "text/event-stream" = true →
      do_forward upstream =
        { status := upstream.status_code, body := .eventStream upstream.body,
          headers := forwarded_headers upstream,
          media_type := some "text/event-stream" }) ∧
    (strStarts (strLower (upstream_content_type upstream)) "text/event-stream" = false →
      do_forward upstream =
        { status := upstream.status_code, body := .buffered upstream.body,
          headers := forwarded_headers upstream,
          media_type :=
            if strEmpty (upstream_content_type upstream) then none
            else some (String.mk ((upstream_content_type upstream).data.takeWhile
              (fun c => c != ';'))) }) ∧
    (∀ n v, (n, v) ∈ forwarded_headers upstream ↔
      (n ∈ ALLOWED_UPSTREAM_HEADERS ∧ header_get upstream.headers n = some v)) := by
  refine ⟨fun h => ?_, fun h => ?_, fun n v => ?_⟩
  · simp [do_forward, h]
  · simp [do_forward, h]
  · constructor
    · intro hmem
      rw [forwarded_headers, List.mem_filterMap] at hmem
      obtain ⟨a, ha, hfa⟩ := hmem
      rw [Option.map_eq_some'] at hfa
      obtain ⟨w, hw, heq⟩ := hfa
      injection heq with h1 h2
      subst h1
      subst h2
      exact ⟨ha, hw⟩
    · rintro ⟨hn, hv⟩
      rw [forwarded_headers, List.mem_filterMap]
      exact ⟨n, hn, by rw [hv]; rfl⟩

/-- C9 witness: the concrete event-stream response is streamed through
with status 200, the body verbatim, and only the allow-listed session
header. -/
theorem C9_content_negotiation_witness :
    do_forward upstream_sse =
      { status := 200, body := .eventStream "data: hi",
        headers := [("Mcp-Session-Id", "s1")],
        media_type := some "text/event-stream" } :=
  (C9_content_negotiation upstream_sse).1 rfl

/-- C6: the remote bridge tries the internal DNS name first, and a
successful upstream exchange — whatever its application-level status —
is returned as-is with no Machines-API lookup and no retry.  Only a
connection error triggers the fallback: with no API token configured the
bridge returns 502/`-32603` at once; a failed lookup returns
502/`-32603` naming the lookup failure; a successful lookup with a
truthy private address leads to exactly one retry against the raw
address, whose success is returned and whose failure (of either kind)
yields 502/`-32603`; a lookup response without a usable address yields
502/`-32603`.  Any non-connection exception from the first attempt also
yields 502/`-32603` with no lookup.  Every path returns a response —
the call is never dropped. -/
theorem C6_remote_fallback_contract (message : JObj) (pv : String) :
    (∀ tok gm ipA upstream,
      forward_to_fly_machine ⟨tok, .ok upstream, gm, ipA⟩ message pv =
        { response := do_forward upstream, attempts := [.internalDns], lookups := 0 }) ∧
    (∀ tok gm ipA emsg,
      forward_to_fly_machine ⟨tok, .failure emsg, gm, ipA⟩ message pv =
        { response := gateway_502 (JObj.getPy message "id")
            ("Error connecting to MCP server: " ++ emsg) pv,
          attempts := [.internalDns], lookups := 0 }) ∧
    (∀ gm ipA emsg,
      forward_to_fly_machine ⟨none, .connectError emsg, gm, ipA⟩ message pv =
        { response := gateway_502 (JObj.getPy message "id")
            ("Error connecting to MCP server (internal DNS failed and no FLY_API_TOKEN for lookup): "
              ++ emsg) pv,
          attempts := [.internalDns], lookups := 0 }) ∧
    (∀ tok ipA emsg lookup_error, pyTruthyStr tok = true →
      forward_to_fly_machine ⟨tok, .connectError emsg, .error lookup_error, ipA⟩
          message pv =
        { response := gateway_502 (JObj.getPy message "id")
            ("Error connecting to MCP server (Machines API lookup failed): " ++ lookup_error)
            pv,
          attempts := [.internalDns], lookups := 1 }) ∧
    (∀ tok ipA emsg machine_info, pyTruthyStr tok = true →
      (extract_private_ip machine_info).pyTruthy = false →
      forward_to_fly_machine ⟨tok, .connectError emsg, .ok machine_info, ipA⟩
          message pv =
        { response := gateway_502 (JObj.getPy message "id")
            "MCP server machine has no private IP address in Machines API response." pv,
          attempts := [.internalDns], lookups := 1 }) ∧
    (∀ tok ipA emsg machine_info upstream, pyTruthyStr tok = true →
      (extract_private_ip machine_info).pyTruthy = true →
      ipA (extract_private_ip machine_info) = .ok upstream →
      forward_to_fly_machine ⟨tok, .connectError emsg, .ok machine_info, ipA⟩
          message pv =
        { response := do_forward upstream,
          attempts := [.internalDns, .rawAddress (extract_private_ip machine_info)],
          lookups := 1 }) ∧
    (∀ tok ipA emsg machine_info m2, pyTruthyStr tok = true →
      (extract_private_ip machine_info).pyTruthy = true →
      (ipA (extract_private_ip machine_info) = .connectError m2 ∨
        ipA (extract_private_ip machine_info) = .failure m2) →
      forward_to_fly_machine ⟨tok, .connectError emsg, .ok machine_info, ipA⟩
          message pv =
        { response := gateway_502 (JObj.getPy message "id")
            ("Error connecting to MCP server: " ++ m2) pv,
          attempts := [.internalDns, .rawAddress (extract_private_ip machine_info)],
          lookups := 1 }) := by
  refine ⟨fun tok gm ipA upstream => rfl,
          fun tok gm ipA emsg => rfl,
          fun gm ipA emsg => rfl,
          fun tok ipA emsg lookup_error htok => ?_,
          fun tok ipA emsg machine_info htok hip => ?_,
          fun tok ipA emsg machine_info upstream htok hip hA => ?_,
          fun tok ipA emsg machine_info m2 htok hip hA => ?_⟩
  · simp [forward_to_fly_machine, htok]
  · simp [forward_to_fly_machine, htok, hip]
  · simp [forward_to_fly_machine, htok, hip, hA]
  · rcases hA with hA | hA <;> simp [forward_to_fly_machine, htok, hip, hA]

/-- C6 witness: the scenario from the spec — machine unreachable via
internal DNS and the Machines-API lookup also fails — concretely yields
the 502 response with error code `-32603` naming the lookup failure. -/
theorem C6_remote_fallback_witness :
    forward_to_fly_machine
        ⟨some "fly-token", .connectError "dns refused", .error "api down",
          fun _ => .failure "late failure"⟩
        [("id", .num 7)] "2025-06-18" =
      { response := gateway_502 (.num 7)
          ("Error connecting to MCP server (Machines API lookup failed): " ++ "api down")
          "2025-06-18",
        attempts := [.internalDns], lookups := 1 } :=
  (C6_remote_fallback_contract [("id", .num 7)] "2025-06-18").2.2.2.1
    (some "fly-token") (fun _ => .failure "late failure") "dns refused" "api down" rfl

/-- C5 counterexample: the claim asserts a 30-second-bounded wait for
every `call_tool` against a running process, but on the Windows path
(`_call_tool_windows`) the blocking `readline` is not guarded by any
timeout: with a backend that never responds the call never returns at
all — no timeout fires, no `-32603` error is produced, and the lock is
never released. -/
theorem C5_windows_read_has_no_timeout :
    call_tool true true .neverResponds "tools/call" (.obj []) (.num 1) = .hangs ∧
    ∀ trace response,
      call_tool true true .neverResponds "tools/call" (.obj []) (.num 1) ≠
        .returns trace response := by
  refine ⟨rfl, fun trace response h => ?_⟩
  rw [show call_tool true true .neverResponds "tools/call" (.obj []) (.num 1) =
    .hangs from rfl] at h
  cases h

/-- C5 (amended): on the asyncio path (every non-Windows platform), a
`call_tool` against a running process acquires the exclusion lock,
writes exactly one newline-framed message (the JSON-RPC request dict),
awaits exactly one framed response line under a 30-second timeout, and
releases the lock last in every outcome: a well-formed line is returned
as the response; a malformed (non-JSON) line maps to a `-32603` internal
error; an EOF maps to a `-32603` internal error; and a line that arrives
late — or never — triggers the timeout, again mapped to a `-32603`
internal error.  The call always returns (never hangs), so the lock is
never poisoned.  On Windows the same single framed write/read and error
mapping apply, but the read carries no timeout guard. -/
theorem C5_unix_call_tool_contract (method : String) (params msg_id : JVal) :
    (∀ behavior, ∃ response,
      call_tool false true behavior method params msg_id =
        .returns (call_trace (some 30) method params msg_id) response) ∧
    (∀ j, call_tool false true (.lineWithin30 (.ok j)) method params msg_id =
      .returns (call_trace (some 30) method params msg_id) j) ∧
    (∀ e, call_tool false true (.lineWithin30 (.error e)) method params msg_id =
      .returns (call_trace (some 30) method params msg_id)
        (jsonrpc_error msg_id (-32603) ("Internal error: " ++ e))) ∧
    (call_tool false true .eofWithin30 method params msg_id =
      .returns (call_trace (some 30) method params msg_id)
        (jsonrpc_error msg_id (-32603) "Internal error: MCP server closed stdout")) ∧
    (∀ parsed, call_tool false true (.lineAfter30 parsed) method params msg_id =
      .returns (call_trace (some 30) method params msg_id)
        (jsonrpc_error msg_id (-32603) "Internal error: ")) ∧
    (call_tool false true .eofAfter30 method params msg_id =
      .returns (call_trace (some 30) method params msg_id)
        (jsonrpc_error msg_id (-32603) "Internal error: ")) ∧
    (call_tool false true .neverResponds method params msg_id =
      .returns (call_trace (some 30) method params msg_id)
        (jsonrpc_error msg_id (-32603) "Internal error: ")) ∧
    (call_trace (some 30) method params msg_id =
      [.acquireLock, .writeFrame (rpc_request method params msg_id),
       .readFramedLine (some 30), .releaseLock]) := by
  refine ⟨fun behavior => ?_, fun j => rfl, fun e => rfl, rfl, fun parsed => ?_, rfl,
    rfl, rfl⟩
  · cases behavior with
    | lineWithin30 parsed => cases parsed <;> exact ⟨_, rfl⟩
    | lineAfter30 parsed => cases parsed <;> exact ⟨_, rfl⟩
    | eofWithin30 => exact ⟨_, rfl⟩
    | eofAfter30 => exact ⟨_, rfl⟩
    | neverResponds => exact ⟨_, rfl⟩
  · cases parsed <;> rfl

/-- C4: `start_server` on a deployment that already has a registered
target is a no-op returning success — the state (registry and number of
processes launched) is unchanged, so no second process is ever spawned —
and the registry invariant "at most one target per deployment" (its key
list has no duplicates) is preserved by every sequence of
`start_server` / `stop_server` operations. -/
theorem C4_start_idempotent_registry_invariant :
    (∀ st deployment_id ok,
      (List.lookup deployment_id st.running_servers).isSome = true →
      start_server st deployment_id ok = (st, true)) ∧
    (∀ st ops, (mkeys st.running_servers).Nodup →
      (mkeys (runOps st ops).running_servers).Nodup) := by
  refine ⟨fun st deployment_id ok h => ?_, fun st ops h => runOps_nodup ops st h⟩
  simp [start_server, h]

/-- C4 witness: starting an already-registered deployment concretely
leaves the state untouched and succeeds, and a concrete double-start /
stop / restart sequence from the empty registry keeps its keys
duplicate-free. -/
theorem C4_start_idempotent_witness :
    start_server ⟨[("d1", 0)], 1⟩ "d1" false = (⟨[("d1", 0)], 1⟩, true) ∧
    (mkeys (runOps ⟨[], 0⟩
      [.start "d1" true, .start "d1" true, .stop "d1", .start "d1" true]
      ).running_servers).Nodup :=
  ⟨C4_start_idempotent_registry_invariant.1 ⟨[("d1", 0)], 1⟩ "d1" false rfl,
   C4_start_idempotent_registry_invariant.2 ⟨[], 0⟩
     [.start "d1" true, .start "d1" true, .stop "d1", .start "d1" true]
     (by simp [mkeys])⟩
